import Mathlib

/-!
Verification development for the `ConversationV1` client binding
(`src/conversation/v1.js`).

The source file under `src/` contains the service facade: the constructor
and the 22 endpoint methods, each of which builds a `parameters` record
(url template, HTTP method, `pick`-filtered body/query/path mappings,
required-parameter list, default options) and hands it to the generic
request dispatcher `requestFactory` from `../lib/requestwrapper`.  The
dispatcher and `BaseService` (`../lib/base_service`) belong to this
repository but are not under `src/`; they are modelled here from the
specification (each such definition says so in its doc comment).  The
third-party `object.pick` helper is embedded from its documented
semantics, which coincide with the specification of the parameter filter.
-/

/-- Model of a JavaScript runtime value, restricted to the shapes the
facade manipulates: strings, integers, booleans, plain objects (modelled
as association lists of own enumerable properties), `null`, `undefined`,
and function values (whose properties are not modelled; no claim depends
on them). -/
inductive Value where
  | str (s : String)
  | num (n : Int)
  | boolean (b : Bool)
  | obj (fields : List (String × Value))
  | nullv
  | undef
  | func
deriving Repr

/-- An object field mapping: own enumerable properties in insertion order. -/
abbrev Params := List (String × Value)

/-- JavaScript truthiness of a value (`Boolean(v)`). -/
def truthy : Value → Bool
  | .str s => s.length != 0
  | .num n => n != 0
  | .boolean b => b
  | .obj _ => true
  | .nullv => false
  | .undef => false
  | .func => true

/-- JavaScript `a || b`. -/
def jsOr (a b : Value) : Value := if truthy a then a else b

/-- True when `typeof v` is not the string undefined, i.e. the check
`typeof x === undefined-string` fails. -/
def jsDefined : Value → Bool
  | .undef => false
  | _ => true

/-- True when `typeof v` is function. -/
def isFunction : Value → Bool
  | .func => true
  | _ => false

/-- Lookup of an own property in an object field list (first match wins;
field lists built by the model have distinct keys). -/
def lookupField : Params → String → Option Value
  | [], _ => none
  | kv :: rest, k => if kv.1 = k then some kv.2 else lookupField rest k

/-- Property read `m[k]`: `undefined` when the key is absent. -/
def lookupVal (m : Params) (k : String) : Value :=
  (lookupField m k).getD Value.undef

/-- Model of the `object.pick` dependency: keeps, in key-list order, the
requested keys that are present on the object, preserving value identity.
Non-object inputs (including `null`) yield the empty mapping.  This is the
parameter filter of the specification (section 4.1).  (The library also
walks the prototype chain of function inputs; function properties are not
modelled, and no claim depends on them.) -/
def pick (v : Value) (ks : List String) : Params :=
  match v with
  | .obj fields => ks.filterMap fun k => (lookupField fields k).map fun x => (k, x)
  | _ => []

/-- The left-brace character, written numerically. -/
def lbrace : Char := Char.ofNat 123

/-- The right-brace character, written numerically. -/
def rbrace : Char := Char.ofNat 125

/-- Uppercase hexadecimal digit for `n < 16`. -/
def hexDigit (n : Nat) : Char :=
  Char.ofNat (if n < 10 then 48 + n else 55 + n)

/-- UTF-8 byte sequence of a character, as used by `encodeURIComponent`. -/
def utf8Bytes (c : Char) : List Nat :=
  let n := c.toNat
  if n < 128 then [n]
  else if n < 2048 then [192 + n / 64, 128 + n % 64]
  else if n < 65536 then [224 + n / 4096, 128 + (n / 64) % 64, 128 + n % 64]
  else [240 + n / 262144, 128 + (n / 4096) % 64, 128 + (n / 64) % 64, 128 + n % 64]

/-- Percent-encoding of a single byte, `%XX` with uppercase hex. -/
def pctEnc (b : Nat) : List Char :=
  ['%', hexDigit (b / 16), hexDigit (b % 16)]

/-- Characters left intact by `encodeURIComponent` (ECMAScript unreserved
set: alphanumerics and `- _ . ! ~ * ( )` and the apostrophe, code 39). -/
def isUnreserved (c : Char) : Bool :=
  c.isAlpha || c.isDigit || c == '-' || c == '_' || c == '.' || c == '!' ||
    c == '~' || c == '*' || c == '(' || c == ')' || c.toNat == 39

/-- Encoding of one character: kept if unreserved, otherwise each UTF-8
byte is percent-encoded. -/
def encodeChar (c : Char) : List Char :=
  if isUnreserved c then [c] else (utf8Bytes c).foldr (fun b acc => pctEnc b ++ acc) []

/-- Model of the ECMAScript `encodeURIComponent` builtin. -/
def encodeURIComponent (s : String) : String :=
  (s.data.foldr (fun c acc => encodeChar c ++ acc) []).asString

/-- JavaScript `String(v)` for the modelled value shapes.  Function
sources are not modelled (no claim converts a function to a string). -/
def jsString : Value → String
  | .str s => s
  | .num n => toString n
  | .boolean b => cond b "true" "false"
  | .obj _ => "[object Object]"
  | .nullv => "null"
  | .undef => "undefined"
  | .func => "function"

/-- Modelled from the spec: the path-template resolver of the request
dispatcher (`lib/requestwrapper.js`, not under `src/`).  It scans the
template and replaces each brace-delimited placeholder whose field is
present in the path mapping with the percent-encoded string form of the
value (specification section 4.2); a placeholder whose field is absent is
left in place (the validator is specified to run first, so this case is
unreachable for the declarations of this facade).  Recursion is fuelled by
the template length, which bounds the number of scanned characters. -/
def resolveAux : Nat → List Char → Params → List Char
  | 0, cs, _ => cs
  | _ + 1, [], _ => []
  | fuel + 1, c :: cs, m =>
    if c == lbrace then
      let name := (cs.takeWhile fun d => d != rbrace).asString
      let rest := (cs.dropWhile fun d => d != rbrace).drop 1
      match lookupField m name with
      | some v => (encodeURIComponent (jsString v)).data ++ resolveAux fuel rest m
      | none => c :: name.data ++ rbrace :: resolveAux fuel rest m
    else c :: resolveAux fuel cs m

/-- Resolve a URL template against a path-parameter mapping. -/
def resolveTemplate (tpl : String) (m : Params) : String :=
  (resolveAux tpl.data.length tpl.data m).asString

/-- Names of the brace-delimited placeholders of a URL template, in
order of appearance. -/
def placeholdersAux : Nat → List Char → List String
  | 0, _ => []
  | _ + 1, [] => []
  | fuel + 1, c :: cs =>
    if c == lbrace then
      (cs.takeWhile fun d => d != rbrace).asString ::
        placeholdersAux fuel ((cs.dropWhile fun d => d != rbrace).drop 1)
    else placeholdersAux fuel cs

/-- Path-field names derived from a URL template. -/
def templatePlaceholders (s : String) : List String :=
  placeholdersAux s.data.length s.data

/-- True when a URL still contains a brace, i.e. an unresolved
placeholder token. -/
def hasUnresolved (s : String) : Bool :=
  s.data.any fun c => c == lbrace || c == rbrace

/-- HTTP method of an endpoint declaration. -/
inductive HttpMethod where
  | GET
  | POST
  | DELETE
  | PUT
deriving DecidableEq, Repr

/-- The `options` object each facade method builds: url template, HTTP
method, `json` flag, and the `pick`-filtered body/query/path mappings.
An `Option` field is `none` when the source method omits that key. -/
structure RequestOptions where
  url : String
  method : HttpMethod
  json : Bool
  body : Option Params
  qs : Option Params
  path : Option Params
deriving Repr

/-- The service instance state `this._options` relevant to dispatch: the
base URL, the default query mapping, and the `version_date`
configuration value. -/
structure ServiceOptions where
  url : String
  qs : Params
  version_date : Value
deriving Repr

/-- The `parameters` record each facade method passes to
`requestFactory`: the options object, the required-parameter list (empty
when the source omits the key), and the service default options. -/
structure RequestParameters where
  options : RequestOptions
  requiredParams : List String
  defaultOptions : ServiceOptions
deriving Repr

/-- Static description of one endpoint method of the facade: url
template, HTTP method, `json` flag, the `pick` key lists for body, query
and path (`none` when the source method has no such key), and the
required-parameter list.  Each constant below transcribes one method of
`src/conversation/v1.js`. -/
structure EndpointDecl where
  url : String
  method : HttpMethod
  json : Bool
  bodyFields : Option (List String)
  qsFields : Option (List String)
  pathFields : Option (List String)
  requiredParams : List String
deriving DecidableEq, Repr

/-- Build the `parameters` record of a facade method from its declaration
and the (already normalized) call-parameters value, exactly as each
source method does: every present field list is applied to the parameter
bag with `pick`. -/
def mkRequestParameters (d : EndpointDecl) (self : ServiceOptions) (params : Value) :
    RequestParameters :=
  { options :=
      { url := d.url
        method := d.method
        json := d.json
        body := d.bodyFields.map (pick params)
        qs := d.qsFields.map (pick params)
        path := d.pathFields.map (pick params) }
    requiredParams := d.requiredParams
    defaultOptions := self }

/-- Union of the three `pick` key lists of a declaration. -/
def pickKeys (d : EndpointDecl) : List String :=
  d.qsFields.getD [] ++ d.bodyFields.getD [] ++ d.pathFields.getD []

/-- Modelled from the spec: the option merge performed by `BaseService`
(`lib/base_service.js`, not under `src/`): the caller-supplied options
extended over externally supplied configuration defaults, caller keys
winning.  First match wins in the association-list lookup, so placing the
raw options first realizes that precedence. -/
def mergeOptions (raw ext : Params) : Params := raw ++ ext

/-- Hardcoded default service endpoint (`ConversationV1.URL`, line 42). -/
def ConversationV1.URL : String := "https://gateway.watsonplatform.net/conversation/api"

/-- Version date constant of the initial release (line 48). -/
def ConversationV1.VERSION_DATE_2016_07_11 : String := "2016-07-11"

/-- Version date constant of the September 2016 update (line 77). -/
def ConversationV1.VERSION_DATE_2016_09_20 : String := "2016-09-20"

/-- Version date constant of the February 2017 update (line 126). -/
def ConversationV1.VERSION_DATE_2017_02_03 : String := "2017-02-03"

/-- Modelled from the spec: the `BaseService` constructor
(`lib/base_service.js`, not under `src/`) merges the raw constructor
options over external configuration defaults into `this._options`, whose
base URL defaults to the hardcoded service URL and whose default query
mapping starts empty. -/
def baseService (raw ext : Params) : ServiceOptions :=
  { url :=
      match lookupVal (mergeOptions raw ext) "url" with
      | .str s => s
      | _ => ConversationV1.URL
    qs := []
    version_date := lookupVal (mergeOptions raw ext) "version_date" }

/-- Error raised at facade construction time. -/
inductive ConfigError where
  | missingVersionDate
deriving DecidableEq, Repr

/-- The `ConversationV1` constructor (lines 30 to 38): delegate to
`BaseService`, fail when the merged options have no defined
`version_date`, and otherwise attach `version` to the default query
mapping, reading the value from the raw constructor argument (not from
the merged options). -/
def ConversationV1.make (raw ext : Params) : Except ConfigError ServiceOptions :=
  if jsDefined (baseService raw ext).version_date then
    .ok { baseService raw ext with qs := [("version", lookupVal raw "version_date")] }
  else
    .error .missingVersionDate

/-- Error surfaced by the dispatcher before any network interaction. -/
inductive DispatchError where
  | missingRequiredParameter (field : String)
deriving DecidableEq, Repr

/-- The fully-formed outbound HTTP request handed to the transport
collaborator. -/
structure OutboundRequest where
  method : HttpMethod
  url : String
  qs : Params
  body : Option Params
  json : Bool
deriving Repr

/-- The mapping the required-field validator inspects: the union of the
query, body and path mappings of the options object.  For every
declaration of this facade the required keys all occur in the `pick` key
lists, so validating this union agrees with validating the raw call
parameters (proved below). -/
def validationMap (o : RequestOptions) : Params :=
  o.qs.getD [] ++ o.body.getD [] ++ o.path.getD []

/-- Modelled from the spec: the fail-fast required-field validator of the
dispatcher (section 4.3) reports the first required key that is absent or
has an undefined value. -/
def firstMissing (required : List String) (m : Params) : Option String :=
  required.find? fun f => ! jsDefined (lookupVal m f)

/-- Modelled from the spec: the query merge of the dispatcher (section
4.4, step 3): default entries are always present and win on key
collision with caller-supplied entries. -/
def mergeQuery (caller defaults : Params) : Params :=
  (caller.filter fun kv => (lookupField defaults kv.1).isNone) ++ defaults

/-- Modelled from the spec: the request dispatcher `requestFactory`
(`lib/requestwrapper.js`, not under `src/`), specification section 4.4:
validate the required fields first and short-circuit with a
`MissingRequiredParameter` error naming the missing field before any
network interaction; otherwise resolve the path template, concatenate it
to the base URL, merge the query mapping with the service defaults
(defaults winning), and produce the outbound request carrying the body
mapping when the declaration has one. -/
def requestFactory (p : RequestParameters) : Except DispatchError OutboundRequest :=
  match firstMissing p.requiredParams (validationMap p.options) with
  | some f => .error (.missingRequiredParameter f)
  | none =>
    .ok
      { method := p.options.method
        url := p.defaultOptions.url ++ resolveTemplate p.options.url (p.options.path.getD [])
        qs := mergeQuery (p.options.qs.getD []) p.defaultOptions.qs
        body := p.options.body
        json := p.options.json }

/-- True exactly when the dispatcher hands a request to the transport
collaborator: a validation error means no request is ever sent. -/
def transportInvoked (r : Except DispatchError OutboundRequest) : Bool :=
  match r with
  | .ok _ => true
  | .error _ => false

/-- Declaration of `message` (lines 191 to 206). -/
def ConversationV1.messageDecl : EndpointDecl :=
  { url := "/v1/workspaces/\x7bworkspace_id\x7d/message"
    method := .POST
    json := true
    bodyFields := some ["input", "context", "alternate_intents", "output", "entities", "intents"]
    qsFields := none
    pathFields := some ["workspace_id"]
    requiredParams := ["workspace_id"] }

/-- Method `message` (lines 191 to 206): normalize absent parameters to
the empty object, build the parameters record, keep the callback. -/
def ConversationV1.message (self : ServiceOptions) (params cb : Value) :
    RequestParameters × Value :=
  (mkRequestParameters ConversationV1.messageDecl self (jsOr params (Value.obj [])), cb)

/-- Declaration of `listWorkspaces` (lines 237 to 251): no body, no path,
no required parameters, and no `json` flag. -/
def ConversationV1.listWorkspacesDecl : EndpointDecl :=
  { url := "/v1/workspaces"
    method := .GET
    json := false
    bodyFields := none
    qsFields := some ["page_limit", "include_count", "sort", "cursor"]
    pathFields := none
    requiredParams := [] }

/-- Method `listWorkspaces` (lines 237 to 251): when the first argument
is a function and no callback was given, it becomes the callback and the
parameters become `null`; there is no empty-object normalization. -/
def ConversationV1.listWorkspaces (self : ServiceOptions) (params cb : Value) :
    RequestParameters × Value :=
  let pc := if isFunction params && ! truthy cb then (Value.nullv, params) else (params, cb)
  (mkRequestParameters ConversationV1.listWorkspacesDecl self pc.1, pc.2)

/-- Declaration of `createWorkspace` (lines 357 to 370). -/
def ConversationV1.createWorkspaceDecl : EndpointDecl :=
  { url := "/v1/workspaces"
    method := .POST
    json := true
    bodyFields := some ["name", "language", "entities", "intents", "dialog_nodes", "metadata",
      "description", "counterexamples"]
    qsFields := none
    pathFields := none
    requiredParams := [] }

/-- Method `createWorkspace` (lines 357 to 370). -/
def ConversationV1.createWorkspace (self : ServiceOptions) (params cb : Value) :
    RequestParameters × Value :=
  (mkRequestParameters ConversationV1.createWorkspaceDecl self (jsOr params (Value.obj [])), cb)

/-- Declaration of `getWorkspace` (lines 396 to 411). -/
def ConversationV1.getWorkspaceDecl : EndpointDecl :=
  { url := "/v1/workspaces/\x7bworkspace_id\x7d"
    method := .GET
    json := true
    bodyFields := none
    qsFields := some ["export"]
    pathFields := some ["workspace_id"]
    requiredParams := ["workspace_id"] }

/-- Method `getWorkspace` (lines 396 to 411). -/
def ConversationV1.getWorkspace (self : ServiceOptions) (params cb : Value) :
    RequestParameters × Value :=
  (mkRequestParameters ConversationV1.getWorkspaceDecl self (jsOr params (Value.obj [])), cb)

/-- Declaration of `deleteWorkspace` (lines 424 to 438). -/
def ConversationV1.deleteWorkspaceDecl : EndpointDecl :=
  { url := "/v1/workspaces/\x7bworkspace_id\x7d"
    method := .DELETE
    json := true
    bodyFields := none
    qsFields := none
    pathFields := some ["workspace_id"]
    requiredParams := ["workspace_id"] }

/-- Method `deleteWorkspace` (lines 424 to 438). -/
def ConversationV1.deleteWorkspace (self : ServiceOptions) (params cb : Value) :
    RequestParameters × Value :=
  (mkRequestParameters ConversationV1.deleteWorkspaceDecl self (jsOr params (Value.obj [])), cb)

/-- Declaration of `updateWorkspace` (lines 547 to 562). -/
def ConversationV1.updateWorkspaceDecl : EndpointDecl :=
  { url := "/v1/workspaces/\x7bworkspace_id\x7d"
    method := .POST
    json := true
    bodyFields := some ["name", "language", "entities", "intents", "dialog_nodes", "metadata",
      "description", "counterexamples"]
    qsFields := none
    pathFields := some ["workspace_id"]
    requiredParams := ["workspace_id"] }

/-- Method `updateWorkspace` (lines 547 to 562). -/
def ConversationV1.updateWorkspace (self : ServiceOptions) (params cb : Value) :
    RequestParameters × Value :=
  (mkRequestParameters ConversationV1.updateWorkspaceDecl self (jsOr params (Value.obj [])), cb)

/-- Declaration of `workspaceStatus` (lines 583 to 597). -/
def ConversationV1.workspaceStatusDecl : EndpointDecl :=
  { url := "/v1/workspaces/\x7bworkspace_id\x7d/status"
    method := .GET
    json := true
    bodyFields := none
    qsFields := none
    pathFields := some ["workspace_id"]
    requiredParams := ["workspace_id"] }

/-- Method `workspaceStatus` (lines 583 to 597). -/
def ConversationV1.workspaceStatus (self : ServiceOptions) (params cb : Value) :
    RequestParameters × Value :=
  (mkRequestParameters ConversationV1.workspaceStatusDecl self (jsOr params (Value.obj [])), cb)

/-- Declaration of `createIntent` (lines 612 to 627). -/
def ConversationV1.createIntentDecl : EndpointDecl :=
  { url := "/v1/workspaces/\x7bworkspace_id\x7d/intents"
    method := .POST
    json := true
    bodyFields := some ["intent", "description", "examples"]
    qsFields := none
    pathFields := some ["workspace_id"]
    requiredParams := ["workspace_id", "intent"] }

/-- Method `createIntent` (lines 612 to 627). -/
def ConversationV1.createIntent (self : ServiceOptions) (params cb : Value) :
    RequestParameters × Value :=
  (mkRequestParameters ConversationV1.createIntentDecl self (jsOr params (Value.obj [])), cb)

/-- Declaration of `getIntents` (lines 644 to 659). -/
def ConversationV1.getIntentsDecl : EndpointDecl :=
  { url := "/v1/workspaces/\x7bworkspace_id\x7d/intents"
    method := .GET
    json := true
    bodyFields := none
    qsFields := some ["export", "page_limit", "include_count", "sort", "cursor"]
    pathFields := some ["workspace_id"]
    requiredParams := ["workspace_id"] }

/-- Method `getIntents` (lines 644 to 659). -/
def ConversationV1.getIntents (self : ServiceOptions) (params cb : Value) :
    RequestParameters × Value :=
  (mkRequestParameters ConversationV1.getIntentsDecl self (jsOr params (Value.obj [])), cb)

/-- Declaration of `getIntent` (lines 673 to 688). -/
def ConversationV1.getIntentDecl : EndpointDecl :=
  { url := "/v1/workspaces/\x7bworkspace_id\x7d/intents/\x7bintent\x7d"
    method := .GET
    json := true
    bodyFields := none
    qsFields := some ["export"]
    pathFields := some ["workspace_id", "intent"]
    requiredParams := ["workspace_id", "intent"] }

/-- Method `getIntent` (lines 673 to 688). -/
def ConversationV1.getIntent (self : ServiceOptions) (params cb : Value) :
    RequestParameters × Value :=
  (mkRequestParameters ConversationV1.getIntentDecl self (jsOr params (Value.obj [])), cb)

/-- Declaration of `updateIntent` (lines 704 to 719). -/
def ConversationV1.updateIntentDecl : EndpointDecl :=
  { url := "/v1/workspaces/\x7bworkspace_id\x7d/intents/\x7bold_intent\x7d"
    method := .POST
    json := true
    bodyFields := some ["intent", "description", "examples"]
    qsFields := none
    pathFields := some ["workspace_id", "old_intent"]
    requiredParams := ["workspace_id", "old_intent", "intent"] }

/-- Method `updateIntent` (lines 704 to 719). -/
def ConversationV1.updateIntent (self : ServiceOptions) (params cb : Value) :
    RequestParameters × Value :=
  (mkRequestParameters ConversationV1.updateIntentDecl self (jsOr params (Value.obj [])), cb)

/-- Declaration of `deleteIntent` (lines 732 to 746). -/
def ConversationV1.deleteIntentDecl : EndpointDecl :=
  { url := "/v1/workspaces/\x7bworkspace_id\x7d/intents/\x7bintent\x7d"
    method := .DELETE
    json := true
    bodyFields := none
    qsFields := none
    pathFields := some ["workspace_id", "intent"]
    requiredParams := ["workspace_id", "intent"] }

/-- Method `deleteIntent` (lines 732 to 746). -/
def ConversationV1.deleteIntent (self : ServiceOptions) (params cb : Value) :
    RequestParameters × Value :=
  (mkRequestParameters ConversationV1.deleteIntentDecl self (jsOr params (Value.obj [])), cb)

/-- Declaration of `getExamples` (lines 763 to 778). -/
def ConversationV1.getExamplesDecl : EndpointDecl :=
  { url := "/v1/workspaces/\x7bworkspace_id\x7d/intents/\x7bintent\x7d/examples"
    method := .GET
    json := true
    bodyFields := none
    qsFields := some ["page_limit", "include_count", "sort", "cursor"]
    pathFields := some ["workspace_id", "intent"]
    requiredParams := ["workspace_id", "intent"] }

/-- Method `getExamples` (lines 763 to 778). -/
def ConversationV1.getExamples (self : ServiceOptions) (params cb : Value) :
    RequestParameters × Value :=
  (mkRequestParameters ConversationV1.getExamplesDecl self (jsOr params (Value.obj [])), cb)

/-- Declaration of `createExample` (lines 792 to 807). -/
def ConversationV1.createExampleDecl : EndpointDecl :=
  { url := "/v1/workspaces/\x7bworkspace_id\x7d/intents/\x7bintent\x7d/examples"
    method := .POST
    json := true
    bodyFields := some ["text"]
    qsFields := none
    pathFields := some ["workspace_id", "intent"]
    requiredParams := ["workspace_id", "intent"] }

/-- Method `createExample` (lines 792 to 807). -/
def ConversationV1.createExample (self : ServiceOptions) (params cb : Value) :
    RequestParameters × Value :=
  (mkRequestParameters ConversationV1.createExampleDecl self (jsOr params (Value.obj [])), cb)

/-- Declaration of `deleteExample` (lines 821 to 835). -/
def ConversationV1.deleteExampleDecl : EndpointDecl :=
  { url := "/v1/workspaces/\x7bworkspace_id\x7d/intents/\x7bintent\x7d/examples/\x7btext\x7d"
    method := .DELETE
    json := true
    bodyFields := none
    qsFields := none
    pathFields := some ["workspace_id", "intent", "text"]
    requiredParams := ["workspace_id", "intent", "text"] }

/-- Method `deleteExample` (lines 821 to 835). -/
def ConversationV1.deleteExample (self : ServiceOptions) (params cb : Value) :
    RequestParameters × Value :=
  (mkRequestParameters ConversationV1.deleteExampleDecl self (jsOr params (Value.obj [])), cb)

/-- Declaration of `getExample` (lines 849 to 863). -/
def ConversationV1.getExampleDecl : EndpointDecl :=
  { url := "/v1/workspaces/\x7bworkspace_id\x7d/intents/\x7bintent\x7d/examples/\x7btext\x7d"
    method := .GET
    json := true
    bodyFields := none
    qsFields := none
    pathFields := some ["workspace_id", "intent", "text"]
    requiredParams := ["workspace_id", "intent", "text"] }

/-- Method `getExample` (lines 849 to 863). -/
def ConversationV1.getExample (self : ServiceOptions) (params cb : Value) :
    RequestParameters × Value :=
  (mkRequestParameters ConversationV1.getExampleDecl self (jsOr params (Value.obj [])), cb)

/-- Declaration of `updateExample` (lines 878 to 893). -/
def ConversationV1.updateExampleDecl : EndpointDecl :=
  { url := "/v1/workspaces/\x7bworkspace_id\x7d/intents/\x7bintent\x7d/examples/\x7bold_text\x7d"
    method := .POST
    json := true
    bodyFields := some ["text"]
    qsFields := none
    pathFields := some ["workspace_id", "intent", "old_text"]
    requiredParams := ["workspace_id", "intent", "old_text", "text"] }

/-- Method `updateExample` (lines 878 to 893). -/
def ConversationV1.updateExample (self : ServiceOptions) (params cb : Value) :
    RequestParameters × Value :=
  (mkRequestParameters ConversationV1.updateExampleDecl self (jsOr params (Value.obj [])), cb)

/-- Declaration of `getCounterExamples` (lines 909 to 924). -/
def ConversationV1.getCounterExamplesDecl : EndpointDecl :=
  { url := "/v1/workspaces/\x7bworkspace_id\x7d/counterexamples"
    method := .GET
    json := true
    bodyFields := none
    qsFields := some ["page_limit", "include_count", "sort", "cursor"]
    pathFields := some ["workspace_id"]
    requiredParams := ["workspace_id"] }

/-- Method `getCounterExamples` (lines 909 to 924). -/
def ConversationV1.getCounterExamples (self : ServiceOptions) (params cb : Value) :
    RequestParameters × Value :=
  (mkRequestParameters ConversationV1.getCounterExamplesDecl self (jsOr params (Value.obj [])), cb)

/-- Declaration of `createCounterExample` (lines 937 to 952). -/
def ConversationV1.createCounterExampleDecl : EndpointDecl :=
  { url := "/v1/workspaces/\x7bworkspace_id\x7d/counterexamples"
    method := .POST
    json := true
    bodyFields := some ["text"]
    qsFields := none
    pathFields := some ["workspace_id"]
    requiredParams := ["workspace_id", "text"] }

/-- Method `createCounterExample` (lines 937 to 952). -/
def ConversationV1.createCounterExample (self : ServiceOptions) (params cb : Value) :
    RequestParameters × Value :=
  (mkRequestParameters ConversationV1.createCounterExampleDecl self (jsOr params (Value.obj [])), cb)

/-- Declaration of `deleteCounterExample` (lines 965 to 979). -/
def ConversationV1.deleteCounterExampleDecl : EndpointDecl :=
  { url := "/v1/workspaces/\x7bworkspace_id\x7d/counterexamples/\x7btext\x7d"
    method := .DELETE
    json := true
    bodyFields := none
    qsFields := none
    pathFields := some ["workspace_id", "text"]
    requiredParams := ["workspace_id", "text"] }

/-- Method `deleteCounterExample` (lines 965 to 979). -/
def ConversationV1.deleteCounterExample (self : ServiceOptions) (params cb : Value) :
    RequestParameters × Value :=
  (mkRequestParameters ConversationV1.deleteCounterExampleDecl self (jsOr params (Value.obj [])), cb)

/-- Declaration of `getCounterExample` (lines 992 to 1006). -/
def ConversationV1.getCounterExampleDecl : EndpointDecl :=
  { url := "/v1/workspaces/\x7bworkspace_id\x7d/counterexamples/\x7btext\x7d"
    method := .GET
    json := true
    bodyFields := none
    qsFields := none
    pathFields := some ["workspace_id", "text"]
    requiredParams := ["workspace_id", "text"] }

/-- Method `getCounterExample` (lines 992 to 1006). -/
def ConversationV1.getCounterExample (self : ServiceOptions) (params cb : Value) :
    RequestParameters × Value :=
  (mkRequestParameters ConversationV1.getCounterExampleDecl self (jsOr params (Value.obj [])), cb)

/-- Declaration of `updateCounterExample` (lines 1020 to 1035). -/
def ConversationV1.updateCounterExampleDecl : EndpointDecl :=
  { url := "/v1/workspaces/\x7bworkspace_id\x7d/counterexamples/\x7bold_text\x7d"
    method := .POST
    json := true
    bodyFields := some ["text"]
    qsFields := none
    pathFields := some ["workspace_id", "old_text"]
    requiredParams := ["workspace_id", "old_text", "text"] }

/-- Method `updateCounterExample` (lines 1020 to 1035). -/
def ConversationV1.updateCounterExample (self : ServiceOptions) (params cb : Value) :
    RequestParameters × Value :=
  (mkRequestParameters ConversationV1.updateCounterExampleDecl self (jsOr params (Value.obj [])), cb)

/-- The full endpoint declaration table of the facade, in source order. -/
def conversationEndpoints : List EndpointDecl :=
  [ConversationV1.messageDecl, ConversationV1.listWorkspacesDecl,
   ConversationV1.createWorkspaceDecl, ConversationV1.getWorkspaceDecl,
   ConversationV1.deleteWorkspaceDecl, ConversationV1.updateWorkspaceDecl,
   ConversationV1.workspaceStatusDecl, ConversationV1.createIntentDecl,
   ConversationV1.getIntentsDecl, ConversationV1.getIntentDecl,
   ConversationV1.updateIntentDecl, ConversationV1.deleteIntentDecl,
   ConversationV1.getExamplesDecl, ConversationV1.createExampleDecl,
   ConversationV1.deleteExampleDecl, ConversationV1.getExampleDecl,
   ConversationV1.updateExampleDecl, ConversationV1.getCounterExamplesDecl,
   ConversationV1.createCounterExampleDecl, ConversationV1.deleteCounterExampleDecl,
   ConversationV1.getCounterExampleDecl, ConversationV1.updateCounterExampleDecl]

/-- All endpoint methods of the facade with their names, in source order. -/
def endpointMethods : List (String × (ServiceOptions → Value → Value → RequestParameters × Value)) :=
  [("message", ConversationV1.message), ("listWorkspaces", ConversationV1.listWorkspaces),
   ("createWorkspace", ConversationV1.createWorkspace), ("getWorkspace", ConversationV1.getWorkspace),
   ("deleteWorkspace", ConversationV1.deleteWorkspace), ("updateWorkspace", ConversationV1.updateWorkspace),
   ("workspaceStatus", ConversationV1.workspaceStatus), ("createIntent", ConversationV1.createIntent),
   ("getIntents", ConversationV1.getIntents), ("getIntent", ConversationV1.getIntent),
   ("updateIntent", ConversationV1.updateIntent), ("deleteIntent", ConversationV1.deleteIntent),
   ("getExamples", ConversationV1.getExamples), ("createExample", ConversationV1.createExample),
   ("deleteExample", ConversationV1.deleteExample), ("getExample", ConversationV1.getExample),
   ("updateExample", ConversationV1.updateExample), ("getCounterExamples", ConversationV1.getCounterExamples),
   ("createCounterExample", ConversationV1.createCounterExample),
   ("deleteCounterExample", ConversationV1.deleteCounterExample),
   ("getCounterExample", ConversationV1.getCounterExample),
   ("updateCounterExample", ConversationV1.updateCounterExample)]

/-- A concretely constructed service instance used by the scenario
theorems: raw options carrying the 2017-02-03 version date. -/
def svcEx : ServiceOptions :=
  { url := ConversationV1.URL
    qs := [("version", Value.str ConversationV1.VERSION_DATE_2017_02_03)]
    version_date := Value.str ConversationV1.VERSION_DATE_2017_02_03 }

/-- Applying a present field-list option to a parameter bag with `pick`
and defaulting an absent one to the empty mapping is the same as picking
against the defaulted key list. -/
theorem optPick (p : Value) (o : Option (List String)) :
    (o.map (pick p)).getD [] = pick p (o.getD []) := by
  cases o with
  | none => cases p <;> rfl
  | some ks => rfl

/-- Association-list lookup over an append tries the left part first. -/
theorem lookupField_append (a b : Params) (k : String) :
    lookupField (a ++ b) k =
      match lookupField a k with
      | some v => some v
      | none => lookupField b k := by
  induction a with
  | nil => rfl
  | cons kv rest ih =>
    by_cases h : kv.1 = k
    · simp [lookupField, h]
    · simp [lookupField, h, ih]

/-- Lookup in a `pick` result: the original value when the key was
requested, nothing otherwise. -/
theorem lookupField_pick (pm : Params) (ks : List String) (g : String) :
    lookupField (pick (Value.obj pm) ks) g =
      if g ∈ ks then lookupField pm g else none := by
  induction ks with
  | nil => simp [pick, lookupField]
  | cons a t ih =>
    simp only [pick, List.filterMap_cons] at ih ⊢
    by_cases hag : a = g
    · subst hag
      cases ha : lookupField pm a with
      | none => simp [ha, ih]
      | some v => simp [lookupField, ha]
    · have hga : ¬ g = a := fun h => hag h.symm
      cases ha : lookupField pm a with
      | none => simp [ha, ih, hga]
      | some v => simp [lookupField, ha, hag, hga, ih]

/-- A key that occurs in one of the three `pick` key lists reads the same
value from the union of the picked mappings as from the raw parameter
bag. -/
theorem lookupField_union (pm : Params) (q b pth : List String) (g : String)
    (hg : g ∈ q ∨ g ∈ b ∨ g ∈ pth) :
    lookupField (pick (Value.obj pm) q ++ pick (Value.obj pm) b ++ pick (Value.obj pm) pth) g
      = lookupField pm g := by
  rw [lookupField_append, lookupField_append, lookupField_pick, lookupField_pick,
    lookupField_pick]
  cases hL : lookupField pm g with
  | none =>
    by_cases h1 : g ∈ q <;> by_cases h2 : g ∈ b <;> by_cases h3 : g ∈ pth <;>
      simp [h1, h2, h3, hL]
  | some v =>
    rcases hg with h | h | h
    · simp [h, hL]
    · by_cases h1 : g ∈ q
      · simp [h1, hL]
      · simp [h1, h, hL]
    · by_cases h1 : g ∈ q
      · simp [h1, hL]
      · by_cases h2 : g ∈ b
        · simp [h1, h2, hL]
        · simp [h1, h2, h, hL]

/-- The validation mapping built by a facade method reads required keys
exactly as the raw call parameters do, provided the key occurs in one of
the `pick` key lists of the declaration. -/
theorem lookupVal_validation (d : EndpointDecl) (self : ServiceOptions) (pm : Params)
    (g : String) (hg : g ∈ pickKeys d) :
    lookupVal (validationMap (mkRequestParameters d self (Value.obj pm)).options) g
      = lookupVal pm g := by
  have hvm : validationMap (mkRequestParameters d self (Value.obj pm)).options
      = pick (Value.obj pm) (d.qsFields.getD []) ++ pick (Value.obj pm) (d.bodyFields.getD [])
          ++ pick (Value.obj pm) (d.pathFields.getD []) := by
    simp [validationMap, mkRequestParameters, optPick]
  rw [lookupVal, lookupVal, hvm, lookupField_union]
  simp only [pickKeys, List.mem_append] at hg
  tauto

/-- Two predicates that agree on the members of a list find the same
first witness. -/
theorem find?_congr_mem (l : List String) (p q : String → Bool)
    (h : ∀ x ∈ l, p x = q x) : l.find? p = l.find? q := by
  induction l with
  | nil => rfl
  | cons a t ih =>
    rw [List.find?_cons, List.find?_cons, h a (List.mem_cons_self a t)]
    cases q a with
    | false => exact ih fun x hx => h x (List.mem_cons_of_mem a hx)
    | true => rfl

/-- A successful lookup means the key is among the mapping keys. -/
theorem mem_keys_of_lookupField {m : Params} {k : String} {v : Value}
    (h : lookupField m k = some v) : k ∈ m.map Prod.fst := by
  induction m with
  | nil => exact Option.noConfusion h
  | cons kv rest ih =>
    by_cases hk : kv.1 = k
    · simp [hk]
    · rw [lookupField, if_neg hk] at h
      simp [ih h]

/-- Keys of a `pick` result come from the requested key list. -/
theorem keys_pick_subset {v : Value} {ks : List String} {k : String}
    (h : k ∈ (pick v ks).map Prod.fst) : k ∈ ks := by
  cases v with
  | obj fields =>
    simp only [pick] at h
    obtain ⟨x, hx, hxk⟩ := List.mem_map.mp h
    obtain ⟨a, ha, hax⟩ := List.mem_filterMap.mp hx
    obtain ⟨w, hw, hwx⟩ := Option.map_eq_some'.mp hax
    rw [← hxk, ← hwx]
    exact ha
  | str s => simp [pick] at h
  | num n => simp [pick] at h
  | boolean b => simp [pick] at h
  | nullv => simp [pick] at h
  | undef => simp [pick] at h
  | func => simp [pick] at h

/-- When the default query mapping carries a key, the merged query
mapping carries the default value for that key, whatever the caller
supplied. -/
theorem lookupField_mergeQuery (caller defaults : Params) (k : String) (v : Value)
    (h : lookupField defaults k = some v) :
    lookupField (mergeQuery caller defaults) k = some v := by
  rw [mergeQuery, lookupField_append]
  have hnone : lookupField (caller.filter fun kv => (lookupField defaults kv.1).isNone) k
      = none := by
    induction caller with
    | nil => rfl
    | cons kv rest ih =>
      by_cases hp : (lookupField defaults kv.1).isNone = true
      · have hk : ¬ kv.1 = k := by
          intro he
          rw [he, h] at hp
          exact Bool.noConfusion hp
        simp [List.filter_cons, hp, lookupField, hk, ih]
      · simp [List.filter_cons, hp, ih]
  rw [hnone]
  exact h

/-- Keys of the merged query mapping come from the caller mapping or the
default mapping. -/
theorem keys_mergeQuery {caller defaults : Params} {k : String}
    (h : k ∈ (mergeQuery caller defaults).map Prod.fst) :
    k ∈ caller.map Prod.fst ∨ k ∈ defaults.map Prod.fst := by
  rw [mergeQuery, List.map_append] at h
  rcases List.mem_append.mp h with h | h
  · left
    obtain ⟨x, hx, hxk⟩ := List.mem_map.mp h
    exact List.mem_map.mpr ⟨x, List.mem_of_mem_filter hx, hxk⟩
  · right
    exact h

/-- A successful dispatch returns exactly the outbound request assembled
from the parameters record. -/
theorem requestFactory_ok {p : RequestParameters} {req : OutboundRequest}
    (h : requestFactory p = .ok req) :
    req = { method := p.options.method
            url := p.defaultOptions.url ++ resolveTemplate p.options.url (p.options.path.getD [])
            qs := mergeQuery (p.options.qs.getD []) p.defaultOptions.qs
            body := p.options.body
            json := p.options.json } := by
  unfold requestFactory at h
  split at h
  · exact Except.noConfusion h
  · injection h with h2
    exact h2.symm

/-- A dispatch whose validator finds a missing field fails with exactly
that field. -/
theorem requestFactory_eq_error {p : RequestParameters} {f : String}
    (h : firstMissing p.requiredParams (validationMap p.options) = some f) :
    requestFactory p = .error (.missingRequiredParameter f) := by
  unfold requestFactory
  rw [h]

/-- Every required key of every declaration of the facade occurs in one
of the three `pick` key lists of that declaration. -/
theorem required_sub_pickKeys :
    ∀ d ∈ conversationEndpoints, ∀ g ∈ d.requiredParams, g ∈ pickKeys d := by
  decide

/-- Raw constructor options used by the scenario theorems. -/
def rawEx : Params := [("version_date", Value.str ConversationV1.VERSION_DATE_2017_02_03)]

/-- Call parameters of the `message` scenario. -/
def paramsMessageEx : Value :=
  Value.obj [("workspace_id", Value.str "ws1"), ("input", Value.obj [("text", Value.str "hi")])]

/-- Expected outbound request of the `message` scenario. -/
def reqMessageEx : OutboundRequest :=
  { method := .POST
    url := ConversationV1.URL ++ "/v1/workspaces/ws1/message"
    qs := [("version", Value.str ConversationV1.VERSION_DATE_2017_02_03)]
    body := some [("input", Value.obj [("text", Value.str "hi")])]
    json := true }

/-- Call parameters of the `deleteExample` scenario. -/
def paramsDeleteExampleEx : Value :=
  Value.obj [("workspace_id", Value.str "ws1"), ("intent", Value.str "greet"),
    ("text", Value.str "hi there")]

/-- Expected outbound request of the `deleteExample` scenario. -/
def reqDeleteExampleEx : OutboundRequest :=
  { method := .DELETE
    url := ConversationV1.URL ++ "/v1/workspaces/ws1/intents/greet/examples/hi%20there"
    qs := [("version", Value.str ConversationV1.VERSION_DATE_2017_02_03)]
    body := none
    json := true }

/-- Call parameters of the `getIntent` scenario: the required `intent`
field is absent. -/
def paramsGetIntentEx : Value := Value.obj [("workspace_id", Value.str "ws1")]

/-- C1: for every endpoint declaration and every parameter mapping
missing a required field, dispatch fails with a
`MissingRequiredParameter` error naming a genuinely missing required
field and the transport collaborator is never invoked; in particular,
`getIntent` with only a workspace id fails with
`MissingRequiredParameter` naming `intent` and sends no request. -/
theorem missingRequired_blocks_dispatch :
    (∀ d ∈ conversationEndpoints, ∀ (self : ServiceOptions) (pm : Params) (f : String),
        f ∈ d.requiredParams → jsDefined (lookupVal pm f) = false →
        ∃ g, g ∈ d.requiredParams ∧ jsDefined (lookupVal pm g) = false ∧
          requestFactory (mkRequestParameters d self (Value.obj pm))
            = .error (.missingRequiredParameter g) ∧
          transportInvoked (requestFactory (mkRequestParameters d self (Value.obj pm)))
            = false) ∧
    requestFactory ((ConversationV1.getIntent svcEx paramsGetIntentEx Value.undef).1)
        = .error (.missingRequiredParameter "intent") ∧
    transportInvoked
        (requestFactory ((ConversationV1.getIntent svcEx paramsGetIntentEx Value.undef).1))
      = false := by
  refine ⟨?_, rfl, rfl⟩
  intro d hd self pm f hf hmiss
  have hcong : firstMissing d.requiredParams
      (validationMap (mkRequestParameters d self (Value.obj pm)).options)
      = d.requiredParams.find? (fun x => ! jsDefined (lookupVal pm x)) := by
    unfold firstMissing
    apply find?_congr_mem
    intro x hx
    rw [lookupVal_validation d self pm x (required_sub_pickKeys d hd x hx)]
  have hsome : (d.requiredParams.find? (fun x => ! jsDefined (lookupVal pm x))).isSome := by
    rw [List.find?_isSome]
    exact ⟨f, hf, by rw [hmiss]; rfl⟩
  obtain ⟨g, hg⟩ := Option.isSome_iff_exists.mp hsome
  have hgmem := List.mem_of_find?_eq_some hg
  have hgpred := List.find?_some hg
  have herr : requestFactory (mkRequestParameters d self (Value.obj pm))
      = .error (.missingRequiredParameter g) := by
    apply requestFactory_eq_error
    rw [show (mkRequestParameters d self (Value.obj pm)).requiredParams
        = d.requiredParams from rfl, hcong]
    exact hg
  refine ⟨g, hgmem, ?_, herr, by rw [herr]; rfl⟩
  cases hv : jsDefined (lookupVal pm g) with
  | false => rfl
  | true => rw [hv] at hgpred; exact Bool.noConfusion hgpred

/-- Witness: the general part of C1 applied to the `getIntent`
declaration with parameters carrying only a workspace id, the required
field `intent` being missing. -/
theorem missingRequired_blocks_dispatch_witness :
    ∃ g, g ∈ ConversationV1.getIntentDecl.requiredParams ∧
      jsDefined (lookupVal [("workspace_id", Value.str "ws1")] g) = false ∧
      requestFactory (mkRequestParameters ConversationV1.getIntentDecl svcEx
          (Value.obj [("workspace_id", Value.str "ws1")]))
        = .error (.missingRequiredParameter g) ∧
      transportInvoked (requestFactory (mkRequestParameters ConversationV1.getIntentDecl svcEx
          (Value.obj [("workspace_id", Value.str "ws1")]))) = false :=
  missingRequired_blocks_dispatch.1 ConversationV1.getIntentDecl (by decide) svcEx
    [("workspace_id", Value.str "ws1")] "intent" (by decide) (by decide)

/-- C4: calling `message` with a workspace id and an input text produces
a POST request to the resolved message URL, a query carrying the default
version, and a body holding exactly the input (the workspace id is in
the path, not the body). -/
theorem message_scenario_request :
    ConversationV1.make rawEx [] = .ok svcEx ∧
    requestFactory ((ConversationV1.message svcEx paramsMessageEx Value.undef).1)
      = .ok reqMessageEx ∧
    reqMessageEx.method = HttpMethod.POST ∧
    reqMessageEx.url = ConversationV1.URL ++ "/v1/workspaces/ws1/message" ∧
    lookupField reqMessageEx.qs "version"
      = some (Value.str ConversationV1.VERSION_DATE_2017_02_03) ∧
    reqMessageEx.body = some [("input", Value.obj [("text", Value.str "hi")])] ∧
    lookupField (reqMessageEx.body.getD []) "workspace_id" = none :=
  ⟨rfl, rfl, rfl, rfl, rfl, rfl, rfl⟩

/-- C5: calling `deleteExample` with workspace id, intent and a text
containing a space produces a DELETE request whose URL substitutes every
placeholder with the percent-encoded parameter value, leaving no brace
token in the resolved URL. -/
theorem deleteExample_scenario_request :
    requestFactory ((ConversationV1.deleteExample svcEx paramsDeleteExampleEx Value.undef).1)
      = .ok reqDeleteExampleEx ∧
    reqDeleteExampleEx.method = HttpMethod.DELETE ∧
    reqDeleteExampleEx.url
      = ConversationV1.URL ++ "/v1/workspaces/ws1/intents/greet/examples/hi%20there" ∧
    encodeURIComponent "hi there" = "hi%20there" ∧
    hasUnresolved reqDeleteExampleEx.url = false :=
  ⟨rfl, rfl, rfl, rfl, by decide⟩

/-- C9: the constructor checks `version_date` on the merged options but
reads the attached `version` value from the raw argument: when the
version date is defined only through the merged options, construction
succeeds and the attached value is the undefined value, not the merged
one. -/
theorem version_value_from_raw_quirk :
    lookupVal [] "version_date" = Value.undef ∧
    jsDefined (lookupVal (mergeOptions [] rawEx) "version_date") = true ∧
    ∃ s, ConversationV1.make [] rawEx = .ok s ∧
      lookupField s.qs "version" = some Value.undef ∧
      Value.undef ≠ lookupVal (mergeOptions [] rawEx) "version_date" :=
  ⟨rfl, rfl, ⟨_, rfl, rfl, fun h => Value.noConfusion h⟩⟩

/-- C6: constructing the facade fails with the configuration error
exactly when the merged options carry no defined `version_date`, and
succeeds otherwise. -/
theorem construction_requires_version_date :
    ∀ raw ext : Params,
      (jsDefined (lookupVal (mergeOptions raw ext) "version_date") = false →
        ConversationV1.make raw ext = .error .missingVersionDate) ∧
      (jsDefined (lookupVal (mergeOptions raw ext) "version_date") = true →
        ∃ s, ConversationV1.make raw ext = .ok s) := by
  intro raw ext
  have hv : (baseService raw ext).version_date
      = lookupVal (mergeOptions raw ext) "version_date" := rfl
  constructor
  · intro h
    unfold ConversationV1.make
    rw [hv, h]
    rfl
  · intro h
    unfold ConversationV1.make
    rw [hv, h]
    exact ⟨_, rfl⟩

/-- Witness: with empty options construction fails with the
configuration error; with a raw version date it succeeds. -/
theorem construction_requires_version_date_witness :
    ConversationV1.make [] [] = .error .missingVersionDate ∧
    ∃ s, ConversationV1.make rawEx [] = .ok s :=
  ⟨(construction_requires_version_date [] []).1 rfl,
   (construction_requires_version_date rawEx []).2 rfl⟩

/-- C8: in every declaration of the facade, every required field name
occurs among the allowed body-field names, the allowed query-field
names, or the path-field names derived from the URL template. -/
theorem required_subset_of_allowed_union :
    ∀ d ∈ conversationEndpoints, ∀ f ∈ d.requiredParams,
      f ∈ d.bodyFields.getD [] ++ d.qsFields.getD [] ++ templatePlaceholders d.url := by
  decide

/-- Witness: C8 applied to the `message` declaration and its required
field. -/
theorem required_subset_of_allowed_union_witness :
    "workspace_id" ∈ ConversationV1.messageDecl.bodyFields.getD []
        ++ ConversationV1.messageDecl.qsFields.getD []
        ++ templatePlaceholders ConversationV1.messageDecl.url :=
  required_subset_of_allowed_union ConversationV1.messageDecl (by decide)
    "workspace_id" (by decide)

/-- Call parameters carrying a key that no declaration allows. -/
def paramsEvil : Value :=
  Value.obj [("workspace_id", Value.str "ws1"), ("evil", Value.str "x")]

/-- C2: for every endpoint method and any parameter bag, the filtered
body, query and path mappings contain only keys from the allowed field
lists of the declaration, and in a successfully constructed outbound
request the body keys come from the allowed body list while the merged
query keys come from the allowed query list or the service default
query; hence an extra key never reaches the outbound request. -/
theorem extra_keys_never_leak :
    ∀ d ∈ conversationEndpoints, ∀ (self : ServiceOptions) (params : Value) (k : String),
      (k ∈ ((mkRequestParameters d self params).options.body.getD []).map Prod.fst →
        k ∈ d.bodyFields.getD []) ∧
      (k ∈ ((mkRequestParameters d self params).options.qs.getD []).map Prod.fst →
        k ∈ d.qsFields.getD []) ∧
      (k ∈ ((mkRequestParameters d self params).options.path.getD []).map Prod.fst →
        k ∈ d.pathFields.getD []) ∧
      ∀ req, requestFactory (mkRequestParameters d self params) = .ok req →
        (k ∈ (req.body.getD []).map Prod.fst → k ∈ d.bodyFields.getD []) ∧
        (k ∈ req.qs.map Prod.fst → k ∈ d.qsFields.getD [] ∨ k ∈ self.qs.map Prod.fst) := by
  intro d hd self params k
  have hb : ∀ o : Option (List String),
      k ∈ ((o.map (pick params)).getD []).map Prod.fst → k ∈ o.getD [] := by
    intro o hk
    rw [optPick] at hk
    exact keys_pick_subset hk
  refine ⟨hb d.bodyFields, hb d.qsFields, hb d.pathFields, ?_⟩
  intro req hok
  have hreq := requestFactory_ok hok
  subst hreq
  constructor
  · intro hk
    exact hb d.bodyFields hk
  · intro hk
    rcases keys_mergeQuery hk with h | h
    · exact Or.inl (hb d.qsFields h)
    · exact Or.inr h

/-- Witness: C2 applied to the `message` declaration with a parameter
bag carrying an unknown extra key. -/
theorem extra_keys_never_leak_witness :
    ("evil" ∈ ((mkRequestParameters ConversationV1.messageDecl svcEx paramsEvil).options.body.getD
          []).map Prod.fst →
      "evil" ∈ ConversationV1.messageDecl.bodyFields.getD []) ∧
    ("evil" ∈ ((mkRequestParameters ConversationV1.messageDecl svcEx paramsEvil).options.qs.getD
          []).map Prod.fst →
      "evil" ∈ ConversationV1.messageDecl.qsFields.getD []) ∧
    ("evil" ∈ ((mkRequestParameters ConversationV1.messageDecl svcEx paramsEvil).options.path.getD
          []).map Prod.fst →
      "evil" ∈ ConversationV1.messageDecl.pathFields.getD []) ∧
    (∀ req, requestFactory (mkRequestParameters ConversationV1.messageDecl svcEx paramsEvil)
        = .ok req →
      ("evil" ∈ (req.body.getD []).map Prod.fst →
        "evil" ∈ ConversationV1.messageDecl.bodyFields.getD []) ∧
      ("evil" ∈ req.qs.map Prod.fst →
        "evil" ∈ ConversationV1.messageDecl.qsFields.getD [] ∨
          "evil" ∈ svcEx.qs.map Prod.fst)) :=
  extra_keys_never_leak ConversationV1.messageDecl (by decide) svcEx paramsEvil "evil"

/-- C3: on every successfully constructed service instance and every
successful dispatch of any endpoint, the merged query mapping carries
the default `version` entry with the value the constructor attached, so
no caller-supplied key overrides it. -/
theorem version_default_present_not_overridden :
    ∀ (raw ext : Params) (self : ServiceOptions), ConversationV1.make raw ext = .ok self →
      ∀ d ∈ conversationEndpoints, ∀ (params : Value) (req : OutboundRequest),
        requestFactory (mkRequestParameters d self params) = .ok req →
        lookupField req.qs "version" = some (lookupVal raw "version_date") ∧
        "version" ∈ req.qs.map Prod.fst := by
  intro raw ext self hmk d hd params req hok
  have hqs : self.qs = [("version", lookupVal raw "version_date")] := by
    unfold ConversationV1.make at hmk
    split at hmk
    · injection hmk with h
      rw [← h]
    · exact Except.noConfusion hmk
  have hreq := requestFactory_ok hok
  subst hreq
  have hdef : lookupField self.qs "version" = some (lookupVal raw "version_date") := by
    rw [hqs]
    simp [lookupField]
  have hmerge := lookupField_mergeQuery
    ((mkRequestParameters d self params).options.qs.getD []) self.qs "version"
    (lookupVal raw "version_date") hdef
  exact ⟨hmerge, mem_keys_of_lookupField hmerge⟩

/-- Witness: C3 applied to the concretely constructed service and the
`message` scenario request. -/
theorem version_default_present_not_overridden_witness :
    lookupField reqMessageEx.qs "version" = some (lookupVal rawEx "version_date") ∧
    "version" ∈ reqMessageEx.qs.map Prod.fst :=
  version_default_present_not_overridden rawEx [] svcEx rfl ConversationV1.messageDecl
    (by decide) paramsMessageEx reqMessageEx rfl

/-- C7: every endpoint method treats a null or undefined parameter bag
exactly like the empty mapping, and dispatching the resulting request
either succeeds (no required fields) or fails only through
required-field validation. -/
theorem null_params_treated_as_empty :
    ∀ nm ∈ endpointMethods, ∀ (self : ServiceOptions) (cb : Value),
      nm.2 self Value.nullv cb = nm.2 self (Value.obj []) cb ∧
      nm.2 self Value.undef cb = nm.2 self (Value.obj []) cb ∧
      (((nm.2 self Value.nullv cb).1.requiredParams = [] ∧
          transportInvoked (requestFactory (nm.2 self Value.nullv cb).1) = true) ∨
        ∃ f, f ∈ (nm.2 self Value.nullv cb).1.requiredParams ∧
          requestFactory (nm.2 self Value.nullv cb).1
            = .error (.missingRequiredParameter f)) := by
  intro nm hmem self cb
  simp only [endpointMethods, List.mem_cons, List.not_mem_nil, or_false] at hmem
  rcases hmem with rfl | rfl | rfl | rfl | rfl | rfl | rfl | rfl | rfl | rfl | rfl | rfl |
    rfl | rfl | rfl | rfl | rfl | rfl | rfl | rfl | rfl | rfl
  all_goals
    first
      | exact ⟨rfl, rfl, Or.inl ⟨rfl, rfl⟩⟩
      | exact ⟨rfl, rfl, Or.inr ⟨"workspace_id", List.mem_cons_self _ _, rfl⟩⟩

/-- Witness: C7 applied to the `message` method on the concrete service. -/
theorem null_params_treated_as_empty_witness :
    ConversationV1.message svcEx Value.nullv Value.undef
        = ConversationV1.message svcEx (Value.obj []) Value.undef ∧
    ConversationV1.message svcEx Value.undef Value.undef
        = ConversationV1.message svcEx (Value.obj []) Value.undef ∧
    (((ConversationV1.message svcEx Value.nullv Value.undef).1.requiredParams = [] ∧
        transportInvoked
          (requestFactory (ConversationV1.message svcEx Value.nullv Value.undef).1) = true) ∨
      ∃ f, f ∈ (ConversationV1.message svcEx Value.nullv Value.undef).1.requiredParams ∧
        requestFactory (ConversationV1.message svcEx Value.nullv Value.undef).1
          = .error (.missingRequiredParameter f)) :=
  null_params_treated_as_empty ("message", ConversationV1.message) (List.mem_cons_self _ _)
    svcEx Value.undef

/-- C10: `listWorkspaces` alone normalizes the callback-as-first-argument
convention: given a function and no callback it turns the function into
the callback and dispatches from null parameters (hence an empty caller
query), while every other endpoint method keeps its callback argument
and treats the function as the parameter bag. -/
theorem only_listWorkspaces_normalizes_callback :
    (∀ (self : ServiceOptions) (cb : Value), truthy cb = false →
      ConversationV1.listWorkspaces self Value.func cb
        = (mkRequestParameters ConversationV1.listWorkspacesDecl self Value.nullv,
            Value.func)) ∧
    (∀ self : ServiceOptions,
      (mkRequestParameters ConversationV1.listWorkspacesDecl self Value.nullv).options.qs
        = some []) ∧
    (∀ nm ∈ endpointMethods, nm.1 ≠ "listWorkspaces" →
      ∀ (self : ServiceOptions) (cb : Value),
        ∃ d, nm.2 self Value.func cb = (mkRequestParameters d self Value.func, cb)) := by
  refine ⟨?_, fun self => rfl, ?_⟩
  · intro self cb hcb
    simp [ConversationV1.listWorkspaces, isFunction, hcb]
  · intro nm hmem hne self cb
    simp only [endpointMethods, List.mem_cons, List.not_mem_nil, or_false] at hmem
    rcases hmem with rfl | rfl | rfl | rfl | rfl | rfl | rfl | rfl | rfl | rfl | rfl | rfl |
      rfl | rfl | rfl | rfl | rfl | rfl | rfl | rfl | rfl | rfl
    all_goals
      first
        | exact absurd rfl hne
        | exact ⟨_, rfl⟩

/-- Witness: the callback normalization of `listWorkspaces` and its
absence in `message`, at concrete inputs. -/
theorem only_listWorkspaces_normalizes_callback_witness :
    ConversationV1.listWorkspaces svcEx Value.func Value.undef
      = (mkRequestParameters ConversationV1.listWorkspacesDecl svcEx Value.nullv,
          Value.func) ∧
    ∃ d, ConversationV1.message svcEx Value.func Value.undef
      = (mkRequestParameters d svcEx Value.func, Value.undef) :=
  ⟨only_listWorkspaces_normalizes_callback.1 svcEx Value.undef rfl,
   only_listWorkspaces_normalizes_callback.2.2 ("message", ConversationV1.message)
     (List.mem_cons_self _ _) (by decide) svcEx Value.undef⟩
